import Mathlib

/-!
Verification of the anti-bot fetch/paginate/persist core of the
`dynamic_web_scraper` repository.

The Python sources are shallowly embedded:

* `src/src/antibot.py` — `RetryHandler` (`should_retry`, `get_delay`,
  `execute_with_retry`), `RequestThrottler` (`wait`, `record_success`,
  `record_error`), `ProxyRotator` (`get_next`, `mark_failed`,
  `mark_success`, `reset_failed`, `add_proxy`), `CaptchaDetector`
  (`is_captcha_page`, `is_blocked`);
* `final_antibot_scraper.py` — `is_blocked`, `fetch_with_retry`, the
  pagination loop of `main`;
* `advanced_scraper.py` — the `do_request` body used by `fetch_page`;
* `src/src/database.py` — `insert_quote`, `insert_quotes_batch`, plus a
  connection-level model (working vs. committed state) for the
  commit/rollback behaviour of `insert_quote`.

Machine floats/datetimes are modelled as exact rationals; Python's
`Optional` arguments become `Option`, with Python truthiness (`None`,
`0` and `""` are falsy) made explicit where the source relies on it.
-/

namespace Scraper

/-! ## Python truthiness helpers -/

/-- Truthiness of a Python `Optional[int]`: `None` and `0` are falsy. -/
def pyTruthyNat : Option Nat → Bool
  | none => false
  | some n => n != 0

/-- Truthiness of a Python `Optional[str]`: `None` and `""` are falsy. -/
def pyTruthyStr : Option String → Bool
  | none => false
  | some s => s != ""

/-! ## RetryHandler (src/src/antibot.py, lines 268–358) -/

/-- Configuration of `RetryHandler.__init__` (defaults `3, 1.0, 60.0, 2.0`). -/
structure RetryHandler where
  max_retries : Nat
  base_delay : ℚ
  max_delay : ℚ
  exponential_base : ℚ

/-- The `retryable_codes` set of `RetryHandler.should_retry`. -/
def retryable_codes : List Nat := [408, 429, 500, 502, 503, 504]

/-- `RetryHandler.should_retry(attempt, status_code)` from `antibot.py`.
`status_code` defaults to `None` in the source; the two `if status_code and …`
guards use Python truthiness. -/
def RetryHandler.should_retry (rh : RetryHandler) (attempt : Nat)
    (status_code : Option Nat) : Bool :=
  if rh.max_retries ≤ attempt then false
  else if pyTruthyNat status_code && ((status_code.getD 0) ∈ retryable_codes : Bool) then
    true
  else if pyTruthyNat status_code && decide (400 ≤ status_code.getD 0)
      && decide (status_code.getD 0 < 500) && ((status_code.getD 0) != 429) then
    false
  else true

/-- **C1.** `should_retry` is false whenever `attempt ≥ max_retries`; below the
cap it is true on `{408, 429, 500, 502, 503, 504}`, false on every other
status code in `[400, 500)`, and true otherwise (in particular when no status
code is supplied). -/
theorem c1_should_retry_table (rh : RetryHandler) (attempt : Nat) (c : Option Nat) :
    (rh.max_retries ≤ attempt → rh.should_retry attempt c = false) ∧
    (attempt < rh.max_retries →
      rh.should_retry attempt c =
        (match c with
         | none => true
         | some n =>
           if n ∈ retryable_codes then true
           else if 400 ≤ n ∧ n < 500 then false
           else true)) := by
  constructor
  · intro h
    simp [RetryHandler.should_retry, h]
  · intro h
    have h' : ¬ rh.max_retries ≤ attempt := not_le.mpr h
    match c with
    | none => simp [RetryHandler.should_retry, h', pyTruthyNat]
    | some n =>
      by_cases hmem : n ∈ retryable_codes
      · have hn0 : n ≠ 0 := by
          have hm := hmem
          simp only [retryable_codes, List.mem_cons, List.not_mem_nil, or_false] at hm
          omega
        simp [RetryHandler.should_retry, h', pyTruthyNat, hn0, hmem]
      · by_cases hlo : 400 ≤ n
        · by_cases hhi : n < 500
          · have hn0 : n ≠ 0 := by omega
            have h429 : n ≠ 429 := by
              intro hn; rw [hn] at hmem; simp [retryable_codes] at hmem
            simp [RetryHandler.should_retry, h', pyTruthyNat, hn0, hmem, hlo, hhi, h429]
          · simp [RetryHandler.should_retry, h', pyTruthyNat, hmem, hhi]
        · simp [RetryHandler.should_retry, h', pyTruthyNat, hmem, hlo]

/-- Witness for `c1_should_retry_table` at the default configuration,
attempt `1 < 3`, status code `404` (a non-retryable client error). -/
theorem c1_should_retry_table_witness :
    ((1 : Nat) < (RetryHandler.mk 3 1 60 2).max_retries) ∧
    (RetryHandler.mk 3 1 60 2).should_retry 1 (some 404) = false := by
  refine ⟨by decide, ?_⟩
  have h := (c1_should_retry_table (RetryHandler.mk 3 1 60 2) 1 (some 404)).2 (by decide)
  simpa using h

/-- `RetryHandler.get_delay(attempt)` from `antibot.py`: exponential backoff
`base_delay * exponential_base ** attempt`, plus jitter
`delay * 0.25 * random.uniform(-1, 1)` (the draw `u` is made explicit),
capped at `max_delay`. -/
def RetryHandler.get_delay (rh : RetryHandler) (attempt : Nat) (u : ℚ) : ℚ :=
  let delay := rh.base_delay * rh.exponential_base ^ attempt
  let jitter := delay * (1/4) * u
  min (delay + jitter) rh.max_delay

/-- **C4.** For every attempt and every jitter draw in `[-1, 1]` the delay is
at most the configured `max_delay`; the expected value over the symmetric
jitter (the jitter-free value `get_delay attempt 0`) equals the min-capped
`base_delay * base ^ attempt` and is monotonically non-decreasing in the
attempt number (for a non-negative `base_delay` and a base `≥ 1`, as in the
source defaults `1.0` and `2.0`). -/
theorem c4_get_delay_cap_and_monotone (rh : RetryHandler)
    (hb : 0 ≤ rh.base_delay) (he : 1 ≤ rh.exponential_base) :
    (∀ (attempt : Nat) (u : ℚ), -1 ≤ u → u ≤ 1 →
        rh.get_delay attempt u ≤ rh.max_delay) ∧
    (∀ attempt : Nat,
        rh.get_delay attempt 0 =
          min (rh.base_delay * rh.exponential_base ^ attempt) rh.max_delay) ∧
    (∀ a b : Nat, a ≤ b → rh.get_delay a 0 ≤ rh.get_delay b 0) := by
  refine ⟨fun attempt u _ _ => min_le_right _ _, fun attempt => by
    simp [RetryHandler.get_delay], fun a b hab => ?_⟩
  simp only [RetryHandler.get_delay, mul_zero, add_zero]
  refine min_le_min (mul_le_mul_of_nonneg_left ?_ hb) le_rfl
  exact pow_le_pow_right₀ he hab

/-- Witness for `c4_get_delay_cap_and_monotone` at the source defaults
`max_retries=3, base_delay=1, max_delay=60, exponential_base=2`, attempt `2`,
jitter draw `1/2`. -/
theorem c4_get_delay_cap_and_monotone_witness :
    ((0 : ℚ) ≤ 1 ∧ (1 : ℚ) ≤ 2 ∧ (-1 : ℚ) ≤ 1/2 ∧ (1/2 : ℚ) ≤ 1) ∧
    (RetryHandler.mk 3 1 60 2).get_delay 2 (1/2) ≤ 60 := by
  refine ⟨⟨by norm_num, by norm_num, by norm_num, by norm_num⟩, ?_⟩
  exact (c4_get_delay_cap_and_monotone (RetryHandler.mk 3 1 60 2)
    (by norm_num) (by norm_num)).1 2 (1/2) (by norm_num) (by norm_num)

/-! ## CaptchaDetector (src/src/antibot.py, lines 361–481) -/

/-- Python `str.lower()`, as a list of characters (the embedding works on
`List Char` so that all scans are kernel-computable). -/
def pyLower (s : String) : List Char := s.toList.map Char.toLower

/-- Python's `needle in haystack` literal substring test. -/
def containsSub (haystack : List Char) (needle : String) : Bool :=
  decide (needle.toList <:+: haystack)

/-- `CaptchaDetector.CAPTCHA_INDICATORS` from `antibot.py`. -/
def CAPTCHA_INDICATORS : List String :=
  ["captcha", "recaptcha", "hcaptcha", "challenge",
   "verify you are human", "verify you\x27re human", "are you a robot",
   "bot detection", "access denied", "blocked", "unusual traffic",
   "automated access", "please verify", "security check", "cloudflare",
   "ddos protection", "incapsula", "distil networks", "imperva",
   "perimeterx", "datadome"]

/-- `CaptchaDetector.CAPTCHA_URLS` from `antibot.py`. -/
def CAPTCHA_URLS : List String :=
  ["google.com/recaptcha", "hcaptcha.com", "challenges.cloudflare.com",
   "captcha", "challenge"]

/-- The `captcha_elements` local list of `CaptchaDetector.is_captcha_page`. -/
def captcha_elements : List String :=
  ["id=\"captcha\"", "class=\"captcha\"", "id=\"recaptcha\"",
   "class=\"g-recaptcha\"", "class=\"h-captcha\"", "data-sitekey=",
   "cf-turnstile"]

/-- `CaptchaDetector.is_captcha_page(html, url)` from `antibot.py`: scan the
lower-cased body for text indicators, then (when a truthy `url` is given) the
lower-cased URL for challenge-URL substrings, then the body for CAPTCHA DOM
markers; each loop returns `True` on the first match. -/
def CaptchaDetector.is_captcha_page (html : String) (url : Option String) : Bool :=
  let html_lower := pyLower html
  if CAPTCHA_INDICATORS.any (fun ind => containsSub html_lower ind) then true
  else if pyTruthyStr url
      && CAPTCHA_URLS.any (fun p => containsSub (pyLower (url.getD "")) p) then true
  else if captcha_elements.any (fun e => containsSub html_lower e) then true
  else false

/-- The `blocked_codes` set of `CaptchaDetector.is_blocked`. -/
def blocked_codes : List Nat := [403, 429, 503]

/-- `CaptchaDetector.is_blocked(status_code, html)` from `antibot.py`:
blocked status codes first, then (for a truthy body) the CAPTCHA page scan
with no URL. -/
def CaptchaDetector.is_blocked (status_code : Nat) (html : Option String) : Bool :=
  if status_code ∈ blocked_codes then true
  else if pyTruthyStr html
      && CaptchaDetector.is_captcha_page (html.getD "") none then true
  else false

/-- **C5.** Status codes `{403, 429, 503}` classify as blocked independently of
the body; `(200, "<div class='g-recaptcha' data-sitekey='x'></div>")` is a
CAPTCHA page (and blocked); `(200, "<html>hello</html>")` is neither blocked
nor a CAPTCHA page; and the body scan of `is_captcha_page` is exactly
literal, case-insensitive substring matching against the fixed indicator
vocabulary, challenge-URL substrings and CAPTCHA DOM markers. -/
theorem c5_block_classifier :
    (∀ s ∈ blocked_codes, ∀ html : Option String,
        CaptchaDetector.is_blocked s html = true) ∧
    CaptchaDetector.is_captcha_page
      "<div class=\x27g-recaptcha\x27 data-sitekey=\x27x\x27></div>" none = true ∧
    CaptchaDetector.is_blocked 200
      (some "<div class=\x27g-recaptcha\x27 data-sitekey=\x27x\x27></div>") = true ∧
    CaptchaDetector.is_blocked 200 (some "<html>hello</html>") = false ∧
    CaptchaDetector.is_captcha_page "<html>hello</html>" none = false ∧
    (∀ (html : String) (url : Option String),
      CaptchaDetector.is_captcha_page html url = true ↔
        ((∃ ind ∈ CAPTCHA_INDICATORS, ind.toList <:+: pyLower html) ∨
         (pyTruthyStr url = true ∧
           ∃ p ∈ CAPTCHA_URLS, p.toList <:+: pyLower (url.getD "")) ∨
         (∃ e ∈ captcha_elements, e.toList <:+: pyLower html))) := by
  refine ⟨?_, by decide, by decide, by decide, by decide, ?_⟩
  · intro s hs html
    simp [CaptchaDetector.is_blocked, hs]
  · intro html url
    have hchain : ∀ a b c : Bool,
        (if a then true else if b then true else if c then true else false)
          = (a || b || c) := by decide
    simp only [CaptchaDetector.is_captcha_page]
    rw [hchain]
    simp only [Bool.or_eq_true, Bool.and_eq_true, List.any_eq_true, containsSub,
      decide_eq_true_eq]
    exact or_assoc

/-- Witness for `c5_block_classifier`: status `429` with an arbitrary body is
classified as blocked. -/
theorem c5_block_classifier_witness :
    (429 ∈ blocked_codes) ∧
    CaptchaDetector.is_blocked 429 (some "all fine here") = true :=
  ⟨by decide, c5_block_classifier.1 429 (by decide) (some "all fine here")⟩

/-! ## Fetch with retry

Two implementations are embedded: `fetch_with_retry` from
`final_antibot_scraper.py` (lines 61–94, with its local `is_blocked`,
lines 48–59) and `RetryHandler.execute_with_retry` from `antibot.py`
(lines 330–358) driving the `do_request` body of `advanced_scraper.py`'s
`fetch_page` (lines 153–164).

The transport is scripted: `script attempt` is the `(status_code, body)`
response of the `attempt`-th HTTP GET. Random draws are passed in as
`jitter`. A trace records the returned value, the number of transport
calls, and the back-off sleeps performed, in order. -/

/-- The `block_indicators` list of `final_antibot_scraper.is_blocked`. -/
def block_indicators : List String :=
  ["captcha", "blocked", "access denied", "unusual traffic"]

/-- `is_blocked(status_code, html)` from `final_antibot_scraper.py`. -/
def FinalScraper.is_blocked (status_code : Nat) (html : String) : Bool :=
  if status_code ∈ [403, 429, 503] then true
  else block_indicators.any (fun ind => containsSub (pyLower html) ind)

/-- Observable trace of one `fetch_with_retry` call. -/
structure FetchTrace where
  result : Option String
  calls : Nat
  sleeps : List ℚ
deriving Repr

/-- The `for attempt in range(max_retries)` loop of
`final_antibot_scraper.fetch_with_retry`: a blocked response sleeps
`2 ** attempt + random.uniform(0, 1)` and retries (returning `None` when on
the last attempt); a non-blocked status `≥ 400` raises in
`raise_for_status`, is caught, sleeps likewise and retries (falling off the
loop on the last attempt); otherwise the body is returned. -/
def FinalScraper.fetch_loop (script : Nat → Nat × String) (jitter : Nat → ℚ)
    (max_retries : Nat) : List Nat → Nat → List ℚ → FetchTrace
  | [], calls, sleeps => ⟨none, calls, sleeps⟩
  | attempt :: rest, calls, sleeps =>
    let resp := script attempt
    if FinalScraper.is_blocked resp.1 resp.2 then
      if attempt < max_retries - 1 then
        FinalScraper.fetch_loop script jitter max_retries rest (calls + 1)
          (sleeps ++ [(2 : ℚ) ^ attempt + jitter attempt])
      else ⟨none, calls + 1, sleeps⟩
    else if 400 ≤ resp.1 then
      if attempt < max_retries - 1 then
        FinalScraper.fetch_loop script jitter max_retries rest (calls + 1)
          (sleeps ++ [(2 : ℚ) ^ attempt + jitter attempt])
      else FinalScraper.fetch_loop script jitter max_retries rest (calls + 1) sleeps
    else ⟨some resp.2, calls + 1, sleeps⟩

/-- `fetch_with_retry(url, max_retries)` from `final_antibot_scraper.py`
(the source default is `max_retries = 3`). -/
def FinalScraper.fetch_with_retry (script : Nat → Nat × String) (jitter : Nat → ℚ)
    (max_retries : Nat) : FetchTrace :=
  FinalScraper.fetch_loop script jitter max_retries (List.range max_retries) 0 []

/-- Observable trace of one `RetryHandler.execute_with_retry` call. -/
structure ExecTrace (α : Type) where
  result : Except Unit α
  calls : Nat
  sleeps : List ℚ

/-- The `for attempt in range(max_retries + 1)` loop of
`RetryHandler.execute_with_retry`: a successful call returns immediately; an
exception sleeps `get_delay(attempt)` when `attempt < max_retries` and
retries; after the loop the last exception is re-raised. -/
def RetryHandler.execute_loop (rh : RetryHandler) (script : Nat → Except Unit α)
    (jitter : Nat → ℚ) : List Nat → Nat → List ℚ → Except Unit α → ExecTrace α
  | [], calls, sleeps, last => ⟨last, calls, sleeps⟩
  | attempt :: rest, calls, sleeps, _ =>
    match script attempt with
    | .ok v => ⟨.ok v, calls + 1, sleeps⟩
    | .error e =>
      if attempt < rh.max_retries then
        rh.execute_loop script jitter rest (calls + 1)
          (sleeps ++ [rh.get_delay attempt (jitter attempt)]) (.error e)
      else rh.execute_loop script jitter rest (calls + 1) sleeps (.error e)

/-- `RetryHandler.execute_with_retry(func)` from `antibot.py`, with the
callable scripted per attempt. -/
def RetryHandler.execute_with_retry (rh : RetryHandler) (script : Nat → Except Unit α)
    (jitter : Nat → ℚ) : ExecTrace α :=
  rh.execute_loop script jitter (List.range (rh.max_retries + 1)) 0 [] (.error ())

/-- The `do_request` body of `advanced_scraper.fetch_page`:
`raise_for_status()` raises on any status `≥ 400`; a blocked response (per
`CaptchaDetector.is_blocked`) raises; otherwise the body is returned. -/
def do_request (resp : Nat × String) : Except Unit String :=
  if 400 ≤ resp.1 then Except.error ()
  else if CaptchaDetector.is_blocked resp.1 (some resp.2) then Except.error ()
  else Except.ok resp.2

/-- The scripted transport of the claim: 503 on the first two attempts, then
a plain 200 page. -/
def script503 : Nat → Nat × String := fun i =>
  if i = 0 then (503, "Service Unavailable")
  else if i = 1 then (503, "Service Unavailable")
  else (200, "<html>hello</html>")

/-- **C3.** Against a transport that answers 503, 503, then 200 with a
non-blocked body, both fetch-with-retry implementations return the page
body after exactly 3 transport calls, with a back-off sleep after attempts
1 and 2 only (`2^0 + u₀` and `2^1 + u₁` for `fetch_with_retry`;
`get_delay 0` and `get_delay 1` for `execute_with_retry` at the source
defaults), and no 4th transport call is made. -/
theorem c3_fetch_503_503_200 (jitter : Nat → ℚ) :
    FinalScraper.fetch_with_retry script503 jitter 3 =
      ⟨some "<html>hello</html>", 3,
        [(2 : ℚ) ^ 0 + jitter 0, (2 : ℚ) ^ 1 + jitter 1]⟩ ∧
    (RetryHandler.mk 3 1 60 2).execute_with_retry
        (fun i => do_request (script503 i)) jitter =
      ⟨Except.ok "<html>hello</html>", 3,
        [(RetryHandler.mk 3 1 60 2).get_delay 0 (jitter 0),
         (RetryHandler.mk 3 1 60 2).get_delay 1 (jitter 1)]⟩ := by
  constructor <;> rfl

/-! ## RequestThrottler (src/src/antibot.py, lines 210–265)

Wall-clock time is explicit: a state carries `now`, a `wait` call receives
the `random.uniform(min_delay, max_delay)` draw `u`, and a `tick` event lets
time pass between calls. `time.sleep` advances `now`. -/

/-- Configuration of `RequestThrottler.__init__`
(defaults `1.0, 3.0, 20`). -/
structure RequestThrottler where
  min_delay : ℚ
  max_delay : ℚ
  requests_per_minute : Nat

/-- Mutable state of a `RequestThrottler`, plus the current wall-clock. -/
structure ThrottlerState where
  request_times : List ℚ
  consecutive_errors : Nat
  now : ℚ

/-- Fresh throttler (`request_times = []`, `consecutive_errors = 0`). -/
def initThrottler (now0 : ℚ) : ThrottlerState := ⟨[], 0, now0⟩

/-- The rate-limit sleep of `RequestThrottler.wait`: when the retained count
reaches the cap, sleep `60 - (now - request_times[0])` seconds (the source
guards the sleep with `wait_time > 0`; the `[]` arm mirrors the
`request_times[0]` subscript, which can only be reached when the cap is 0,
where the source would raise `IndexError`). Returns the clock after the
sleep. -/
def rateLimitNow (N : Nat) (now : ℚ) (times : List ℚ) : ℚ :=
  if N ≤ times.length then
    match times with
    | [] => now
    | t0 :: _ =>
      let wait_time := 60 - (now - t0)
      if 0 < wait_time then now + wait_time else now
  else now

/-- `RequestThrottler.wait()` from `antibot.py`: discard request times older
than one minute, sleep the rate-limit wait if the retained count reaches
`requests_per_minute`, sleep the randomized delay
`u * (1 + consecutive_errors * 0.5)`, then record the (new) current time. -/
def RequestThrottler.waitStep (cfg : RequestThrottler) (u : ℚ)
    (s : ThrottlerState) : ThrottlerState :=
  let cutoff := s.now - 60
  let times := s.request_times.filter (fun t => cutoff < t)
  let now1 := rateLimitNow cfg.requests_per_minute s.now times
  let base_delay := u
  let error_multiplier : ℚ := 1 + (s.consecutive_errors : ℚ) * (1 / 2)
  let actual_delay := base_delay * error_multiplier
  let now2 := now1 + actual_delay
  { request_times := times ++ [now2]
    consecutive_errors := s.consecutive_errors
    now := now2 }

/-- One observable interaction with a `RequestThrottler`: a `wait` call (with
its uniform draw), `record_success`, `record_error`, or the passage of `d`
seconds of wall-clock time between calls. -/
inductive ThrottleEvent where
  | wait (u : ℚ)
  | record_success
  | record_error
  | tick (d : ℚ)

/-- Effect of one event on the throttler state. -/
def throttleStep (cfg : RequestThrottler) : ThrottleEvent → ThrottlerState → ThrottlerState
  | .wait u, s => cfg.waitStep u s
  | .record_success, s => { s with consecutive_errors := 0 }
  | .record_error, s => { s with consecutive_errors := s.consecutive_errors + 1 }
  | .tick d, s => { s with now := s.now + d }

/-- Adversarial draws are constrained only to be physical: sleeps and clock
steps are non-negative (`random.uniform` on the source's non-negative delay
bounds is non-negative). -/
def validEvent : ThrottleEvent → Prop
  | .wait u => 0 ≤ u
  | .tick d => 0 ≤ d
  | _ => True

/-- Run a call sequence from a fresh throttler. -/
def runThrottler (cfg : RequestThrottler) (now0 : ℚ)
    (evs : List ThrottleEvent) : ThrottlerState :=
  evs.foldl (fun s e => throttleStep cfg e s) (initThrottler now0)

/-- Number of recorded request timestamps lying in the trailing 60-second
window of `now` (age strictly below 60s, matching the source's
`t > cutoff`). -/
def windowCount (now : ℚ) (times : List ℚ) : Nat :=
  (times.filter (fun t => now - 60 < t)).length

theorem length_filter_mono {α : Type _} {p q : α → Bool}
    (h : ∀ a, p a = true → q a = true) :
    ∀ l : List α, (l.filter p).length ≤ (l.filter q).length := by
  intro l
  induction l with
  | nil => simp
  | cons a l ih =>
    by_cases hp : p a = true
    · rw [List.filter_cons_of_pos hp, List.filter_cons_of_pos (h a hp)]
      simpa using ih
    · rw [List.filter_cons_of_neg (by simpa using hp)]
      by_cases hq : q a = true
      · rw [List.filter_cons_of_pos hq]
        exact le_trans ih (by simp)
      · rw [List.filter_cons_of_neg (by simpa using hq)]
        exact ih

theorem windowCount_append (now : ℚ) (l₁ l₂ : List ℚ) :
    windowCount now (l₁ ++ l₂) = windowCount now l₁ + windowCount now l₂ := by
  simp [windowCount, List.filter_append]

theorem windowCount_le_length (now : ℚ) (l : List ℚ) :
    windowCount now l ≤ l.length :=
  List.length_filter_le _ _

theorem windowCount_cons (now x : ℚ) (l : List ℚ) :
    windowCount now (x :: l) =
      (if now - 60 < x then 1 else 0) + windowCount now l := by
  by_cases hx : now - 60 < x
  · rw [windowCount, List.filter_cons_of_pos (by simpa using hx)]
    simp [hx, windowCount, Nat.add_comm]
  · rw [windowCount, List.filter_cons_of_neg (by simpa using hx)]
    simp [hx, windowCount]

theorem rateLimitNow_of_head (N : Nat) (now t0 : ℚ) (rest : List ℚ)
    (h0 : now - 60 < t0) (hN : N ≤ (t0 :: rest).length) :
    rateLimitNow N now (t0 :: rest) = t0 + 60 := by
  have hw : (0 : ℚ) < 60 - (now - t0) := by linarith
  simp only [rateLimitNow, if_pos hN, hw, if_pos]
  ring

theorem rateLimitNow_of_under (N : Nat) (now : ℚ) (times : List ℚ)
    (h : ¬ N ≤ times.length) : rateLimitNow N now times = now := by
  simp [rateLimitNow, h]

/-- Core of the sliding-window argument: appending the new request time after
the rate-limit sleep plus a non-negative extra delay keeps at most `N`
timestamps inside the trailing window. -/
theorem window_after_wait (N : Nat) (hN : 1 ≤ N) (now a : ℚ) (ha : 0 ≤ a)
    (times : List ℚ) (hmem : ∀ t ∈ times, now - 60 < t)
    (hlen : times.length ≤ N) :
    windowCount (rateLimitNow N now times + a)
      (times ++ [rateLimitNow N now times + a]) ≤ N := by
  set now' := rateLimitNow N now times + a with hnow'
  rw [windowCount_append]
  have hsingle : windowCount now' [now'] = 1 := by
    have : now' - 60 < now' := by linarith
    simp [windowCount, this]
  rw [hsingle]
  by_cases hbr : N ≤ times.length
  · have hteq : times.length = N := le_antisymm hlen hbr
    cases times with
    | nil => simp at hteq; omega
    | cons t0 rest =>
      have h0 : now - 60 < t0 := hmem t0 (by simp)
      have hrl : rateLimitNow N now (t0 :: rest) = t0 + 60 :=
        rateLimitNow_of_head N now t0 rest h0 hbr
      rw [windowCount_cons]
      have ht0 : ¬ (now' - 60 < t0) := by
        rw [hnow', hrl]; intro hc; linarith
      rw [if_neg ht0]
      have hrest : windowCount now' rest ≤ rest.length :=
        windowCount_le_length _ _
      have : rest.length + 1 = N := by simpa using hteq
      omega
  · have hlt : times.length < N := lt_of_not_le hbr
    have : windowCount now' times ≤ times.length := windowCount_le_length _ _
    omega

/-- One event preserves the window invariant. -/
theorem throttleStep_preserves (cfg : RequestThrottler)
    (hN : 1 ≤ cfg.requests_per_minute) (e : ThrottleEvent) (he : validEvent e)
    (s : ThrottlerState)
    (h : windowCount s.now s.request_times ≤ cfg.requests_per_minute) :
    windowCount (throttleStep cfg e s).now
      (throttleStep cfg e s).request_times ≤ cfg.requests_per_minute := by
  cases e with
  | record_success => simpa [throttleStep] using h
  | record_error => simpa [throttleStep] using h
  | tick d =>
    have hd : (0 : ℚ) ≤ d := he
    simp only [throttleStep]
    refine le_trans (length_filter_mono ?_ _) h
    intro t ht
    simp only [decide_eq_true_eq] at ht ⊢
    linarith
  | wait u =>
    have hu : (0 : ℚ) ≤ u := he
    simp only [throttleStep, RequestThrottler.waitStep]
    have hmul : (0 : ℚ) ≤ u * (1 + (s.consecutive_errors : ℚ) * (1 / 2)) := by
      have : (0 : ℚ) ≤ 1 + (s.consecutive_errors : ℚ) * (1 / 2) := by positivity
      exact mul_nonneg hu this
    refine window_after_wait cfg.requests_per_minute hN s.now _ hmul _ ?_ ?_
    · intro t ht
      have := List.of_mem_filter ht
      simpa using this
    · exact h

/-- **C2.** For every configured cap `N ≥ 1` and every physical sequence of
`wait` / `record_success` / `record_error` calls interleaved with passing
time, the throttler ends with at most `N` recorded request timestamps inside
the trailing 60-second window (and since the event list is arbitrary, this
holds at every reachable point of every call sequence). -/
theorem c2_rate_limit_window (cfg : RequestThrottler)
    (hN : 1 ≤ cfg.requests_per_minute) (evs : List ThrottleEvent)
    (hv : ∀ e ∈ evs, validEvent e) (now0 : ℚ) :
    windowCount (runThrottler cfg now0 evs).now
      (runThrottler cfg now0 evs).request_times ≤ cfg.requests_per_minute := by
  suffices hgen : ∀ (l : List ThrottleEvent) (s : ThrottlerState),
      (∀ e ∈ l, validEvent e) →
      windowCount s.now s.request_times ≤ cfg.requests_per_minute →
      windowCount (l.foldl (fun s e => throttleStep cfg e s) s).now
        (l.foldl (fun s e => throttleStep cfg e s) s).request_times
          ≤ cfg.requests_per_minute by
    refine hgen evs (initThrottler now0) hv ?_
    simp [initThrottler, windowCount]
  intro l
  induction l with
  | nil => intro s _ h; simpa using h
  | cons e l ih =>
    intro s hval h
    simp only [List.foldl_cons]
    exact ih _ (fun e' he' => hval e' (by simp [he']))
      (throttleStep_preserves cfg hN e (hval e (by simp)) s h)

/-- Witness for `c2_rate_limit_window`: cap 1, three waits with concrete
draws, an error record and a clock tick. -/
theorem c2_rate_limit_window_witness :
    (1 ≤ (RequestThrottler.mk 1 3 1).requests_per_minute ∧
      (∀ e ∈ [ThrottleEvent.wait 2, ThrottleEvent.record_error,
              ThrottleEvent.wait 0, ThrottleEvent.tick 5,
              ThrottleEvent.wait 1], validEvent e)) ∧
    windowCount
      (runThrottler (RequestThrottler.mk 1 3 1) 0
        [ThrottleEvent.wait 2, ThrottleEvent.record_error,
         ThrottleEvent.wait 0, ThrottleEvent.tick 5,
         ThrottleEvent.wait 1]).now
      (runThrottler (RequestThrottler.mk 1 3 1) 0
        [ThrottleEvent.wait 2, ThrottleEvent.record_error,
         ThrottleEvent.wait 0, ThrottleEvent.tick 5,
         ThrottleEvent.wait 1]).request_times ≤ 1 := by
  refine ⟨⟨by decide, ?_⟩, ?_⟩
  · intro e he
    fin_cases he <;> simp [validEvent]
  · exact c2_rate_limit_window (RequestThrottler.mk 1 3 1) (by decide) _
      (by intro e he; fin_cases he <;> simp [validEvent]) 0

/-! ## Pagination loop (final_antibot_scraper.py `main`, lines 188–224;
the loop of advanced_scraper.py `main`, lines 266–303, has the same shape)

`fetch` is the scripted page fetcher (`fetch_page`, `None` = terminal
failure after retries), `parse` the extraction callback (`parse_quotes`) and
`next_of` the next-link callback (`get_next_page`); both callbacks are
external collaborators, so they are parameters. `Html` and `Item` are kept
abstract. The loop is fuelled structurally; `runPages` supplies
`max_pages + 1` fuel, strictly more than the `max_pages` iterations the
`page_number <= MAX_PAGES` guard allows from page 1. -/

/-- Result of one pagination run: the collected items, the number of
`fetch_page` calls, and whether the run stopped on a fetch failure. -/
structure RunResult (Item : Type) where
  items : List Item
  calls : Nat
  failed : Bool
deriving Repr

/-- The `while current_url and page_number <= MAX_PAGES` loop of `main`:
fetch the page (stop on failure, keeping the collected quotes), extend the
collection with the parsed quotes, follow the next link (appending it to
`BASE_URL`) or stop. -/
def pagesLoop {Html Item : Type} (fetch : String → Option Html)
    (parse : Html → List Item) (next_of : Html → Option String)
    (base_url : String) (max_pages : Nat) :
    Nat → String → Nat → List Item → Nat → RunResult Item
  | 0, _, _, acc, calls => ⟨acc, calls, false⟩
  | fuel + 1, current_url, page_number, acc, calls =>
    if current_url ≠ "" ∧ page_number ≤ max_pages then
      match fetch current_url with
      | none => ⟨acc, calls + 1, true⟩
      | some html =>
        let acc' := acc ++ parse html
        match next_of html with
        | some next_page =>
          pagesLoop fetch parse next_of base_url max_pages fuel
            (base_url ++ next_page) (page_number + 1) acc' (calls + 1)
        | none => ⟨acc', calls + 1, false⟩
    else ⟨acc, calls, false⟩

/-- The pagination run of `main`: start at `BASE_URL` with `page_number = 1`
and no collected quotes. -/
def runPages {Html Item : Type} (fetch : String → Option Html)
    (parse : Html → List Item) (next_of : Html → Option String)
    (base_url : String) (max_pages : Nat) : RunResult Item :=
  pagesLoop fetch parse next_of base_url max_pages (max_pages + 1)
    base_url 1 [] 0

/-- Scripted three-page site for the claim: page `n` parses to 3 items,
pages 1 and 2 link onward, page 3 has no next link. -/
def demo_fetch : String → Option Nat := fun u =>
  if u = "B" then some 1 else if u = "B/2" then some 2
  else if u = "B/3" then some 3 else none

/-- Extraction callback of the claim script: 3 items per page. -/
def demo_parse : Nat → List Nat := fun n => [3 * n, 3 * n + 1, 3 * n + 2]

/-- Next-link callback of the claim script. -/
def demo_next : Nat → Option String := fun n =>
  if n = 1 then some "/2" else if n = 2 then some "/3" else none

/-- **C6.** (a) With a page cap of 2, the loop fetches exactly 2 pages even
when every page has a next link and every fetch succeeds; (b) on the
scripted three-page site with 3 items per page and no next link on page 3
(cap `MAX_PAGES = 5` as in the source), the run returns exactly 9 items and
the fetcher is called exactly 3 times. -/
theorem c6_pagination_stops {Html Item : Type} (fetch : String → Option Html)
    (parse : Html → List Item) (next_of : Html → Option String)
    (base_url : String) (hbase : base_url ≠ "")
    (hfetch : ∀ u, (fetch u).isSome) (hnext : ∀ h, (next_of h).isSome) :
    (runPages fetch parse next_of base_url 2).calls = 2 ∧
    (runPages demo_fetch demo_parse demo_next "B" 5).items.length = 9 ∧
    (runPages demo_fetch demo_parse demo_next "B" 5).calls = 3 := by
  refine ⟨?_, by decide, by decide⟩
  obtain ⟨h1, hh1⟩ := Option.isSome_iff_exists.mp (hfetch base_url)
  obtain ⟨n1, hn1⟩ := Option.isSome_iff_exists.mp (hnext h1)
  obtain ⟨h2, hh2⟩ := Option.isSome_iff_exists.mp (hfetch (base_url ++ n1))
  obtain ⟨n2, hn2⟩ := Option.isSome_iff_exists.mp (hnext h2)
  have hb2 : base_url ++ n1 ≠ "" := by
    intro hc
    apply hbase
    have hlen := congrArg String.length hc
    rw [String.length_append] at hlen
    have h0 : base_url.length = 0 := by simp at hlen; omega
    cases base_url with
    | mk data => cases data with
      | nil => rfl
      | cons c cs => simp [String.length] at h0
  simp [runPages, pagesLoop, hbase, hb2, hh1, hn1, hh2, hn2]

/-- Witness for `c6_pagination_stops`: a one-page-site script where every
fetch succeeds and every page claims a next link. -/
theorem c6_pagination_stops_witness :
    (("B" : String) ≠ "" ∧
      (∀ u : String, ((fun _ : String => some 0) u).isSome) ∧
      (∀ h : Nat, ((fun _ : Nat => some "/x") h).isSome)) ∧
    (runPages (fun _ : String => some 0) (fun n : Nat => [n])
      (fun _ : Nat => some "/x") "B" 2).calls = 2 := by
  refine ⟨⟨by decide, fun u => rfl, fun h => rfl⟩, ?_⟩
  exact (c6_pagination_stops (fun _ : String => some 0) (fun n : Nat => [n])
    (fun _ : Nat => some "/x") "B" (by decide) (fun u => rfl) (fun h => rfl)).1

/-- The pagination loop only ever appends to the accumulated item list. -/
theorem pagesLoop_extends {Html Item : Type} (fetch : String → Option Html)
    (parse : Html → List Item) (next_of : Html → Option String)
    (base_url : String) (max_pages : Nat) :
    ∀ (fuel : Nat) (url : String) (page : Nat) (acc : List Item) (calls : Nat),
      ∃ suffix,
        (pagesLoop fetch parse next_of base_url max_pages fuel url page acc
            calls).items = acc ++ suffix := by
  intro fuel
  induction fuel with
  | zero => exact fun url page acc calls => ⟨[], by simp [pagesLoop]⟩
  | succ n ih =>
    intro url page acc calls
    by_cases hc : url ≠ "" ∧ page ≤ max_pages
    · rcases hf : fetch url with _ | html
      · exact ⟨[], by simp [pagesLoop, hc, hf]⟩
      · rcases hn : next_of html with _ | next_page
        · exact ⟨parse html, by simp [pagesLoop, hc, hf, hn]⟩
        · obtain ⟨suffix, hs⟩ := ih (base_url ++ next_page) (page + 1)
            (acc ++ parse html) (calls + 1)
          refine ⟨parse html ++ suffix, ?_⟩
          simp only [pagesLoop, if_pos hc, hf, hn]
          rw [hs, List.append_assoc]
    · exact ⟨[], by simp [pagesLoop, hc]⟩

/-- **C7.** The accumulated items are only ever appended to: whatever the
scripts do, the run's result extends the already-collected list `acc`; and
when the fetch of the current page fails terminally (inside an active loop
iteration), the loop stops at once and returns exactly the items collected
so far — previously extracted items are never discarded. -/
theorem c7_partial_results {Html Item : Type} (fetch : String → Option Html)
    (parse : Html → List Item) (next_of : Html → Option String)
    (base_url : String) (max_pages : Nat) (fuel : Nat) (url : String)
    (page : Nat) (acc : List Item) (calls : Nat)
    (hurl : url ≠ "") (hpage : page ≤ max_pages) (hfail : fetch url = none) :
    (∃ suffix,
      (pagesLoop fetch parse next_of base_url max_pages fuel url page acc
          calls).items = acc ++ suffix) ∧
    pagesLoop fetch parse next_of base_url max_pages (fuel + 1) url page acc
        calls = ⟨acc, calls + 1, true⟩ := by
  constructor
  · exact pagesLoop_extends fetch parse next_of base_url max_pages fuel url
      page acc calls
  · simp [pagesLoop, hurl, hpage, hfail]

/-- Witness for `c7_partial_results`: a mid-run state with two already
collected items whose page-2 fetch fails; the run returns exactly those
items. -/
theorem c7_partial_results_witness :
    (("B/2" : String) ≠ "" ∧ 2 ≤ 5 ∧
      ((fun _ : String => (none : Option Nat)) "B/2" = none)) ∧
    ((∃ suffix, (pagesLoop (fun _ : String => (none : Option Nat))
        (fun n : Nat => [n]) (fun _ : Nat => none) "B" 5 4 "B/2" 2 [10, 11]
        1).items = [10, 11] ++ suffix) ∧
      pagesLoop (fun _ : String => (none : Option Nat)) (fun n : Nat => [n])
        (fun _ : Nat => none) "B" 5 5 "B/2" 2 [10, 11] 1 =
          ⟨[10, 11], 2, true⟩) := by
  refine ⟨⟨by decide, by decide, rfl⟩, ?_⟩
  exact c7_partial_results (fun _ : String => (none : Option Nat))
    (fun n : Nat => [n]) (fun _ : Nat => none) "B" 5 4 "B/2" 2 [10, 11] 1
    (by decide) (by decide) rfl

/-! ## ProxyRotator (src/src/antibot.py, lines 116–207)

The failed set stores `"host:port"` strings, as in the source; `to_dict`
produces the requests-style proxy URL and `mark_failed`/`mark_success`
recover `host:port` from it. `proxy_stats` is the per-endpoint
success/failure counter dictionary, kept as an association list. -/

/-- `ProxyConfig` from `antibot.py` (defaults: no credentials, `http`). -/
structure ProxyConfig where
  host : String
  port : Nat
  username : Option String
  password : Option String
  protocol : String
deriving Repr, DecidableEq

/-- The `"host:port"` key used by the failed set and the stats dictionary. -/
def proxyKey (p : ProxyConfig) : String := p.host ++ ":" ++ toString p.port

/-- The proxy URL built by `ProxyConfig.to_dict` (both the `"http"` and
`"https"` entries hold this same string). Credentials are included only when
both are truthy. -/
def ProxyConfig.proxy_url (p : ProxyConfig) : String :=
  if pyTruthyStr p.username && pyTruthyStr p.password then
    p.protocol ++ "://" ++ p.username.getD "" ++ ":" ++ p.password.getD ""
      ++ "@" ++ p.host ++ ":" ++ toString p.port
  else p.protocol ++ "://" ++ p.host ++ ":" ++ toString p.port

/-- The `host:port` extraction shared by `mark_failed` and `mark_success`:
take what follows the first `"@"` if any, else strip the scheme prefixes. -/
def extract_host_port (proxy_url : String) : String :=
  if 2 ≤ (proxy_url.splitOn "@").length then (proxy_url.splitOn "@").getD 1 ""
  else (proxy_url.replace "http://" "").replace "https://" ""

/-- State of a `ProxyRotator`. -/
structure ProxyRotator where
  proxies : List ProxyConfig
  current_index : Nat
  failed_proxies : List String
  proxy_stats : List (String × Nat × Nat)

/-- `ProxyRotator.add_proxy`: append to the pool and (re)set the proxy's
stats entry to zero counts. -/
def ProxyRotator.add_proxy (r : ProxyRotator) (p : ProxyConfig) : ProxyRotator :=
  { r with
    proxies := r.proxies ++ [p]
    proxy_stats :=
      if r.proxy_stats.any (fun s => s.1 == proxyKey p) then
        r.proxy_stats.map (fun s => if s.1 == proxyKey p then (s.1, 0, 0) else s)
      else r.proxy_stats ++ [(proxyKey p, 0, 0)] }

/-- `ProxyRotator.mark_failed(proxy_dict)`: add the extracted `host:port` to
the failed set and bump its failure counter when a stats entry exists. -/
def ProxyRotator.mark_failed (r : ProxyRotator) (proxy_url : String) : ProxyRotator :=
  let host_port := extract_host_port proxy_url
  { r with
    failed_proxies :=
      if host_port ∈ r.failed_proxies then r.failed_proxies
      else r.failed_proxies ++ [host_port]
    proxy_stats := r.proxy_stats.map (fun s =>
      if s.1 == host_port then (s.1, s.2.1, s.2.2 + 1) else s) }

/-- `ProxyRotator.mark_success(proxy_dict)`: bump the success counter when a
stats entry exists; the failed set is untouched. -/
def ProxyRotator.mark_success (r : ProxyRotator) (proxy_url : String) : ProxyRotator :=
  let host_port := extract_host_port proxy_url
  { r with
    proxy_stats := r.proxy_stats.map (fun s =>
      if s.1 == host_port then (s.1, s.2.1 + 1, s.2.2) else s) }

/-- `ProxyRotator.reset_failed()`: clear the failed set. -/
def ProxyRotator.reset_failed (r : ProxyRotator) : ProxyRotator :=
  { r with failed_proxies := [] }

/-- The `while attempts < len(self.proxies)` loop of
`ProxyRotator.get_next`: look at `proxies[current_index]`, advance the index
cyclically, return the proxy unless its key is failed, else count the skip
and continue. Returns `(result, final index, final attempts counter)`. The
`none` arm of the subscript mirrors Python's `IndexError`, unreachable while
`idx < proxies.length`. Fuel is structural; `proxies.length + 1` is always
enough since `attempts` grows each iteration. -/
def getNextLoop (proxies : List ProxyConfig) (failed : List String) :
    Nat → Nat → Nat → Option ProxyConfig × Nat × Nat
  | 0, idx, attempts => (none, idx, attempts)
  | fuel + 1, idx, attempts =>
    if attempts < proxies.length then
      match proxies[idx]? with
      | none => (none, idx, attempts)
      | some p =>
        let idx' := (idx + 1) % proxies.length
        if proxyKey p ∉ failed then (some p, idx', attempts)
        else getNextLoop proxies failed fuel idx' (attempts + 1)
    else (none, idx, attempts)

/-- `ProxyRotator.get_next()`: `None` on an empty pool, else run the skip
loop from the current index; the rotator keeps the advanced index. -/
def ProxyRotator.get_next (r : ProxyRotator) : Option ProxyConfig × ProxyRotator :=
  if r.proxies = [] then (none, r)
  else
    let out := getNextLoop r.proxies r.failed_proxies (r.proxies.length + 1)
      r.current_index 0
    (out.1, { r with current_index := out.2.1 })

/-- The skip loop never returns a proxy whose key is in the failed set. -/
theorem getNextLoop_not_failed (proxies : List ProxyConfig) (failed : List String) :
    ∀ (fuel idx att : Nat) (p : ProxyConfig) (i a : Nat),
      getNextLoop proxies failed fuel idx att = (some p, i, a) →
      proxyKey p ∉ failed := by
  intro fuel
  induction fuel with
  | zero => intro idx att p i a h; simp [getNextLoop] at h
  | succ n ih =>
    intro idx att p i a h
    simp only [getNextLoop] at h
    by_cases hatt : att < proxies.length
    · rw [if_pos hatt] at h
      rcases hg : proxies[idx]? with _ | q
      · rw [hg] at h; simp at h
      · rw [hg] at h
        simp only at h
        by_cases hq : proxyKey q ∉ failed
        · rw [if_pos hq] at h
          obtain ⟨hpq, -⟩ := Prod.mk.injEq .. ▸ h
          have : q = p := by injection hpq
          rw [← this]; exact hq
        · rw [if_neg hq] at h
          exact ih _ _ p i a h
    · rw [if_neg hatt] at h; simp at h

/-- When every pool entry is failed, the skip loop walks the whole pool once
(`proxies.length` skips) and returns no proxy. -/
theorem getNextLoop_all_failed (proxies : List ProxyConfig) (failed : List String)
    (hall : ∀ p ∈ proxies, proxyKey p ∈ failed) :
    ∀ (fuel idx att : Nat), idx < proxies.length → att ≤ proxies.length →
      proxies.length - att < fuel →
      ∃ i, getNextLoop proxies failed fuel idx att = (none, i, proxies.length) := by
  intro fuel
  induction fuel with
  | zero => intro idx att _ _ hf; omega
  | succ n ih =>
    intro idx att hidx hatt hfuel
    by_cases hlt : att < proxies.length
    · have hg : proxies[idx]? = some proxies[idx] := List.getElem?_eq_getElem hidx
      have hmem : proxies[idx] ∈ proxies := List.getElem_mem hidx
      have hkey : proxyKey proxies[idx] ∈ failed := hall _ hmem
      have hlen : 0 < proxies.length := by omega
      have hidx' : (idx + 1) % proxies.length < proxies.length := Nat.mod_lt _ hlen
      obtain ⟨i, hi⟩ := ih ((idx + 1) % proxies.length) (att + 1) hidx'
        (by omega) (by omega)
      refine ⟨i, ?_⟩
      simp only [getNextLoop, if_pos hlt, hg]
      rw [if_neg (by simpa using hkey)]
      exact hi
    · have : att = proxies.length := by omega
      exact ⟨idx, by simp [getNextLoop, hlt, this]⟩

/-- **C8.** `get_next` never returns a failed proxy; a key recorded failed
stays failed across `mark_failed`, `mark_success`, `add_proxy` and
`get_next` (which leaves the failed set untouched), and only `reset_failed`
clears it; `mark_failed` really records its key; and on an empty pool, or a
pool whose every proxy is failed, `get_next` returns the distinct
no-proxy-available outcome `none` after walking the pool at most once
(exactly `proxies.length` skip iterations) rather than looping. -/
theorem c8_proxy_rotator (r : ProxyRotator) :
    (∀ (p : ProxyConfig) (r' : ProxyRotator),
        r.get_next = (some p, r') → proxyKey p ∉ r.failed_proxies) ∧
    (∀ k, k ∈ r.failed_proxies →
      ∀ (url : String) (q : ProxyConfig),
        k ∈ (r.mark_failed url).failed_proxies ∧
        k ∈ (r.mark_success url).failed_proxies ∧
        k ∈ (r.add_proxy q).failed_proxies ∧
        (r.get_next).2.failed_proxies = r.failed_proxies) ∧
    (∀ url, extract_host_port url ∈ (r.mark_failed url).failed_proxies) ∧
    (r.reset_failed).failed_proxies = [] ∧
    (r.proxies = [] → r.get_next = (none, r)) ∧
    ((∀ p ∈ r.proxies, proxyKey p ∈ r.failed_proxies) →
      r.current_index < r.proxies.length →
      (r.get_next).1 = none ∧
      (getNextLoop r.proxies r.failed_proxies (r.proxies.length + 1)
          r.current_index 0).2.2 = r.proxies.length) := by
  refine ⟨?_, ?_, ?_, rfl, ?_, ?_⟩
  · intro p r' h
    by_cases hemp : r.proxies = []
    · simp [ProxyRotator.get_next, hemp] at h
    · simp only [ProxyRotator.get_next, if_neg hemp] at h
      obtain ⟨h1, -⟩ := Prod.mk.injEq .. ▸ h
      rcases hloop : getNextLoop r.proxies r.failed_proxies
          (r.proxies.length + 1) r.current_index 0 with ⟨res, i, a⟩
      rw [hloop] at h1
      simp only at h1
      rw [h1] at hloop
      exact getNextLoop_not_failed r.proxies r.failed_proxies _ _ _ p i a hloop
  · intro k hk url q
    refine ⟨?_, hk, hk, ?_⟩
    · simp only [ProxyRotator.mark_failed]
      split
      · exact hk
      · exact List.mem_append_left _ hk
    · by_cases hemp : r.proxies = [] <;>
        simp [ProxyRotator.get_next, hemp]
  · intro url
    simp only [ProxyRotator.mark_failed]
    split
    · assumption
    · exact List.mem_append_right _ (by simp)
  · intro hemp
    simp [ProxyRotator.get_next, hemp]
  · intro hall hidx
    have hemp : r.proxies ≠ [] := by
      intro hc; rw [hc] at hidx; simp at hidx
    obtain ⟨i, hi⟩ := getNextLoop_all_failed r.proxies r.failed_proxies hall
      (r.proxies.length + 1) r.current_index 0 hidx (by omega) (by omega)
    constructor
    · simp [ProxyRotator.get_next, hemp, hi]
    · rw [hi]

/-- A two-proxy rotator whose whole pool is marked failed, for the C8
witness. -/
def demoRotator : ProxyRotator :=
  ProxyRotator.mk
    [ProxyConfig.mk "h1" 80 none none "http",
     ProxyConfig.mk "h2" 81 none none "http"]
    0 ["h1:80", "h2:81"] []

/-- Witness for `c8_proxy_rotator`: with both proxies failed, `get_next`
returns no proxy, and a failed key survives `mark_success`. -/
theorem c8_proxy_rotator_witness :
    ((∀ p ∈ demoRotator.proxies, proxyKey p ∈ demoRotator.failed_proxies) ∧
      demoRotator.current_index < demoRotator.proxies.length ∧
      "h1:80" ∈ demoRotator.failed_proxies) ∧
    ((demoRotator.get_next).1 = none ∧
      "h1:80" ∈ (demoRotator.mark_success "http://h2:81").failed_proxies) := by
  refine ⟨⟨by decide, by decide, by decide⟩, ?_, ?_⟩
  · exact ((c8_proxy_rotator demoRotator).2.2.2.2.2 (by decide) (by decide)).1
  · exact (((c8_proxy_rotator demoRotator).2.1 "h1:80" (by decide)) "http://h2:81"
      (ProxyConfig.mk "h3" 82 none none "http")).2.1

/-! ## Persistence sink (src/src/database.py, lines 89–156)

The SQLite schema of `init_database` is modelled relationally: rows live in
append-only lists and `AUTOINCREMENT` row ids are `position + 1` (sqlite row
ids start at 1, which matters because `insert_quotes_batch` tests the
returned id for Python truthiness). The `UNIQUE` constraint on quote text is
enforced, as in the source, by the leading `SELECT id FROM quotes WHERE
text = ?` check. -/

/-- A row of the `quotes` table. -/
structure QuoteRow where
  text : String
  author_id : Nat
  source_url : Option String
deriving Repr, DecidableEq

/-- The database state: `authors`, `quotes`, `tags` and the `quote_tags`
junction table. -/
structure DB where
  authors : List String
  quotes : List QuoteRow
  tags : List String
  quote_tags : List (Nat × Nat)
deriving Repr, DecidableEq

/-- `SELECT id FROM <table> WHERE name = ?` over a name column whose rows
are numbered from 1. -/
def findId (names : List String) (name : String) : Option Nat :=
  (names.findIdx? (fun n => n == name)).map (· + 1)

/-- Get-or-create on a name table (`authors`, `tags`): the id of the
existing row, or the `lastrowid` of the appended one. -/
def getOrCreate (names : List String) (name : String) : Nat × List String :=
  match findId names name with
  | some i => (i, names)
  | none => (names.length + 1, names ++ [name])

/-- One iteration of the tag loop of `insert_quote`: get-or-create the tag,
then `INSERT OR IGNORE` the `(quote_id, tag_id)` junction row. -/
def tagStepPure (quote_id : Nat) (d : DB) (tag_name : String) : DB :=
  let tag_id := (getOrCreate d.tags tag_name).1
  let d1 := { d with tags := (getOrCreate d.tags tag_name).2 }
  if (quote_id, tag_id) ∈ d1.quote_tags then d1
  else { d1 with quote_tags := d1.quote_tags ++ [(quote_id, tag_id)] }

/-- `insert_quote(text, author, tags, source_url)` from `database.py`:
return `None` when the text already exists; otherwise get-or-create the
author, insert the quote row, get-or-create each tag, `INSERT OR IGNORE`
each `(quote_id, tag_id)` pair, commit, and return the quote id. -/
def insert_quote (text author : String) (tags : List String)
    (source_url : Option String) (db : DB) : Option Nat × DB :=
  if db.quotes.any (fun q => q.text == text) then (none, db)
  else
    let author_id := (getOrCreate db.authors author).1
    let quotes' := db.quotes ++ [QuoteRow.mk text author_id source_url]
    let quote_id := quotes'.length
    let db' := tags.foldl (tagStepPure quote_id)
      (DB.mk (getOrCreate db.authors author).2 quotes' db.tags db.quote_tags)
    (some quote_id, db')

/-- One element of the `quotes` argument of `insert_quotes_batch`. -/
structure QuoteItem where
  text : String
  author : String
  tags : List String
deriving Repr, DecidableEq

/-- `insert_quotes_batch(quotes, source_url)` from `database.py`: insert
each quote, counting a Python-truthy returned id as `added` and anything
else as `skipped`. Returns `(added, skipped, final database)`. -/
def insert_quotes_batch (quotes : List QuoteItem) (source_url : Option String)
    (db : DB) : Nat × Nat × DB :=
  quotes.foldl (fun acc q =>
    let (result, db') := insert_quote q.text q.author q.tags source_url acc.2.2
    if pyTruthyNat result then (acc.1 + 1, acc.2.1, db')
    else (acc.1, acc.2.1 + 1, db')) (0, 0, db)

/-- The tag loop of `insert_quote` never touches the `quotes` table. -/
theorem insert_quote_tagloop_quotes (tags : List String) (quote_id : Nat) :
    ∀ d : DB, (tags.foldl (tagStepPure quote_id) d).quotes = d.quotes := by
  induction tags with
  | nil => intro d; rfl
  | cons t ts ih =>
    intro d
    simp only [List.foldl_cons]
    rw [ih]
    simp only [tagStepPure]
    split <;> rfl

/-- Inserting an already-stored text is a no-op returning `None`. -/
theorem insert_quote_dup (db : DB) (t a : String) (tags : List String)
    (src : Option String) (hdup : ∃ q ∈ db.quotes, q.text = t) :
    insert_quote t a tags src db = (none, db) := by
  have hany : (db.quotes.any fun q => q.text == t) = true := by
    simp only [List.any_eq_true]
    obtain ⟨q, hq, ht⟩ := hdup
    exact ⟨q, hq, by simp [ht]⟩
  simp [insert_quote, hany]

/-- **C9.** Inserting a quote whose text is already stored returns `None`
and leaves the database completely unchanged; inserting a fresh text
returns the new row id, after which exactly one stored quote carries that
text and re-inserting it is a no-op returning `None`; and
`insert_quotes_batch` on the same quote twice reports exactly 1 added and
1 skipped. -/
theorem c9_insert_dedup (db : DB) (t a : String) (tags : List String)
    (src : Option String) :
    ((∃ q ∈ db.quotes, q.text = t) → insert_quote t a tags src db = (none, db)) ∧
    ((∀ q ∈ db.quotes, q.text ≠ t) →
      (insert_quote t a tags src db).1 = some (db.quotes.length + 1) ∧
      (((insert_quote t a tags src db).2).quotes.filter
          (fun q => q.text == t)).length = 1 ∧
      (∀ (a' : String) (tags' : List String) (src' : Option String),
        insert_quote t a' tags' src' ((insert_quote t a tags src db).2) =
          (none, (insert_quote t a tags src db).2)) ∧
      ((insert_quotes_batch [QuoteItem.mk t a tags, QuoteItem.mk t a tags]
          src db).1 = 1 ∧
        (insert_quotes_batch [QuoteItem.mk t a tags, QuoteItem.mk t a tags]
          src db).2.1 = 1)) := by
  constructor
  · exact insert_quote_dup db t a tags src
  · intro hfresh
    have hnot : (db.quotes.any fun q => q.text == t) = false := by
      rw [← Bool.not_eq_true]
      simp only [List.any_eq_true]
      push_neg
      intro q hq
      simpa using hfresh q hq
    have hq2 : (insert_quote t a tags src db).2.quotes =
        db.quotes ++ [QuoteRow.mk t (getOrCreate db.authors a).1 src] := by
      simp only [insert_quote, hnot, Bool.false_eq_true, if_false]
      rw [insert_quote_tagloop_quotes]
    have hres : (insert_quote t a tags src db).1 =
        some (db.quotes.length + 1) := by
      simp [insert_quote, hnot]
    have hdup2 : ∃ q ∈ (insert_quote t a tags src db).2.quotes, q.text = t := by
      rw [hq2]
      exact ⟨QuoteRow.mk t (getOrCreate db.authors a).1 src, by simp, rfl⟩
    have hsecond : ∀ (a' : String) (tags' : List String) (src' : Option String),
        insert_quote t a' tags' src' ((insert_quote t a tags src db).2) =
          (none, (insert_quote t a tags src db).2) :=
      fun a' tags' src' => insert_quote_dup _ t a' tags' src' hdup2
    refine ⟨hres, ?_, hsecond, ?_⟩
    · rw [hq2, List.filter_append]
      have h1 : db.quotes.filter (fun q => q.text == t) = [] := by
        rw [List.filter_eq_nil_iff]
        intro q hq
        simpa using hfresh q hq
      simp [h1]
    · have hpair : insert_quote t a tags src db =
          (some (db.quotes.length + 1), (insert_quote t a tags src db).2) := by
        rw [← hres]
      simp only [insert_quotes_batch, List.foldl_cons, List.foldl_nil]
      rw [hpair]
      simp only [pyTruthyNat]
      have h10 : (db.quotes.length + 1 != 0) = true := by simp
      rw [h10]
      simp only [if_pos]
      rw [hsecond a tags src]
      simp [pyTruthyNat]

/-- Witness for `c9_insert_dedup`: a fresh quote on an empty database is
added once, then skipped: the batch of the same quote twice reports
`added = 1`, `skipped = 1`. -/
theorem c9_insert_dedup_witness :
    (∀ q ∈ (DB.mk [] [] [] []).quotes, q.text ≠ "to be") ∧
    ((insert_quotes_batch
        [QuoteItem.mk "to be" "S" ["life"], QuoteItem.mk "to be" "S" ["life"]]
        none (DB.mk [] [] [] [])).1 = 1 ∧
      (insert_quotes_batch
        [QuoteItem.mk "to be" "S" ["life"], QuoteItem.mk "to be" "S" ["life"]]
        none (DB.mk [] [] [] [])).2.1 = 1) := by
  refine ⟨by simp, ?_⟩
  exact ((c9_insert_dedup (DB.mk [] [] [] []) "to be" "S" ["life"] none).2
    (by simp)).2.2.2

/-! ## Transactional model of `insert_quote` (src/src/database.py, 89–136)

`insert_quote` runs every `cursor.execute` inside one implicit sqlite
transaction, calls `conn.commit()` once at the very end, and on any
exception executes `conn.rollback()` in the `except` block before
re-raising. The model makes the connection explicit: a `TxState` carries
the last committed database and the in-transaction working copy; every
`execute` may raise (decided by an adversarial oracle indexed by the
execute counter), and a raise yields `Except.error` carrying the
database as rolled back. -/

/-- Connection state during one `insert_quote` call. -/
structure TxState where
  committed : DB
  working : DB
  execs : Nat

/-- One `cursor.execute` call performing `action` on the working copy. When
the oracle makes this call raise, `conn.rollback()` discards the working
copy and the committed database is what remains. -/
def tx_exec (fail : Nat → Bool) (action : DB → DB) (ts : TxState) :
    Except DB TxState :=
  if fail ts.execs then Except.error ts.committed
  else Except.ok (TxState.mk ts.committed (action ts.working) (ts.execs + 1))

/-- The `SELECT`-then-maybe-`INSERT` of the author inside `insert_quote`;
on the insert path the returned id is the new row's `lastrowid`. -/
def getOrCreateAuthorTx (fail : Nat → Bool) (author : String) (ts : TxState) :
    Except DB (Nat × TxState) :=
  match findId ts.working.authors author with
  | some i => Except.ok (i, ts)
  | none =>
    match tx_exec fail (fun d => { d with authors := d.authors ++ [author] }) ts with
    | Except.error d => Except.error d
    | Except.ok ts' => Except.ok (ts'.working.authors.length, ts')

/-- The `SELECT`-then-maybe-`INSERT` of one tag inside the tag loop. -/
def getOrCreateTagTx (fail : Nat → Bool) (tag_name : String) (ts : TxState) :
    Except DB (Nat × TxState) :=
  match findId ts.working.tags tag_name with
  | some i => Except.ok (i, ts)
  | none =>
    match tx_exec fail (fun d => { d with tags := d.tags ++ [tag_name] }) ts with
    | Except.error d => Except.error d
    | Except.ok ts' => Except.ok (ts'.working.tags.length, ts')

/-- One iteration of the tag loop of `insert_quote` at the connection
level: the tag `SELECT` (an `execute` that can itself raise), the optional
tag `INSERT`, and the `INSERT OR IGNORE` junction row. -/
def tagStepTx (fail : Nat → Bool) (quote_id : Nat) (ts : TxState)
    (tag_name : String) : Except DB TxState :=
  match tx_exec fail id ts with
  | Except.error d => Except.error d
  | Except.ok ts =>
    match getOrCreateTagTx fail tag_name ts with
    | Except.error d => Except.error d
    | Except.ok (tag_id, ts) =>
      tx_exec fail (fun d =>
        if (quote_id, tag_id) ∈ d.quote_tags then d
        else { d with quote_tags := d.quote_tags ++ [(quote_id, tag_id)] }) ts

/-- `insert_quote` at the connection level: the duplicate `SELECT` (the
early `return None` closes the connection without committing, so the
committed database is returned unchanged), the author lookup/insert, the
quote `INSERT`, the tag loop, and the final `conn.commit()`, after which
the committed database is the working copy. -/
def insert_quote_tx (fail : Nat → Bool) (text author : String)
    (tags : List String) (source_url : Option String) (db : DB) :
    Except DB (Option Nat × DB) :=
  match tx_exec fail id (TxState.mk db db 0) with
  | Except.error d => Except.error d
  | Except.ok ts =>
    if ts.working.quotes.any (fun q => q.text == text) then
      Except.ok (none, ts.committed)
    else
      match tx_exec fail id ts with
      | Except.error d => Except.error d
      | Except.ok ts =>
        match getOrCreateAuthorTx fail author ts with
        | Except.error d => Except.error d
        | Except.ok (author_id, ts) =>
          match tx_exec fail (fun d =>
              { d with quotes :=
                  d.quotes ++ [QuoteRow.mk text author_id source_url] }) ts with
          | Except.error d => Except.error d
          | Except.ok ts =>
            let quote_id := ts.working.quotes.length
            match tags.foldlM (tagStepTx fail quote_id) ts with
            | Except.error d => Except.error d
            | Except.ok ts => Except.ok (some quote_id, ts.working)

/-- Every `execute` either raises, handing back the committed database, or
performs its action on the working copy. -/
theorem tx_exec_spec (fail : Nat → Bool) (action : DB → DB) (ts : TxState) :
    tx_exec fail action ts = Except.error ts.committed ∨
    tx_exec fail action ts =
      Except.ok (TxState.mk ts.committed (action ts.working) (ts.execs + 1)) := by
  by_cases h : fail ts.execs
  · left; simp [tx_exec, h]
  · right; simp [tx_exec, h]

/-- The author lookup/insert either raises with the committed database or
produces the id and state of the pure `getOrCreate`. -/
theorem getOrCreateAuthorTx_spec (fail : Nat → Bool) (author : String)
    (ts : TxState) :
    getOrCreateAuthorTx fail author ts = Except.error ts.committed ∨
    ∃ e, getOrCreateAuthorTx fail author ts =
      Except.ok ((getOrCreate ts.working.authors author).1,
        TxState.mk ts.committed
          { ts.working with authors := (getOrCreate ts.working.authors author).2 }
          e) := by
  rcases hf : findId ts.working.authors author with _ | i
  · rcases tx_exec_spec fail
        (fun d => { d with authors := d.authors ++ [author] }) ts with h | h
    · left
      simp only [getOrCreateAuthorTx, hf]
      rw [h]
    · right
      refine ⟨ts.execs + 1, ?_⟩
      simp only [getOrCreateAuthorTx, hf]
      rw [h]
      simp [getOrCreate, hf]
  · right
    refine ⟨ts.execs, ?_⟩
    simp only [getOrCreateAuthorTx, hf]
    simp [getOrCreate, hf]

/-- The tag lookup/insert either raises with the committed database or
produces the id and state of the pure `getOrCreate`. -/
theorem getOrCreateTagTx_spec (fail : Nat → Bool) (tag_name : String)
    (ts : TxState) :
    getOrCreateTagTx fail tag_name ts = Except.error ts.committed ∨
    ∃ e, getOrCreateTagTx fail tag_name ts =
      Except.ok ((getOrCreate ts.working.tags tag_name).1,
        TxState.mk ts.committed
          { ts.working with tags := (getOrCreate ts.working.tags tag_name).2 }
          e) := by
  rcases hf : findId ts.working.tags tag_name with _ | i
  · rcases tx_exec_spec fail
        (fun d => { d with tags := d.tags ++ [tag_name] }) ts with h | h
    · left
      simp only [getOrCreateTagTx, hf]
      rw [h]
    · right
      refine ⟨ts.execs + 1, ?_⟩
      simp only [getOrCreateTagTx, hf]
      rw [h]
      simp [getOrCreate, hf]
  · right
    refine ⟨ts.execs, ?_⟩
    simp only [getOrCreateTagTx, hf]
    simp [getOrCreate, hf]

/-- One connection-level tag iteration either raises with the committed
database or performs exactly the pure tag step on the working copy. -/
theorem tagStepTx_spec (fail : Nat → Bool) (quote_id : Nat) (ts : TxState)
    (tag_name : String) :
    tagStepTx fail quote_id ts tag_name = Except.error ts.committed ∨
    ∃ e, tagStepTx fail quote_id ts tag_name =
      Except.ok (TxState.mk ts.committed
        (tagStepPure quote_id ts.working tag_name) e) := by
  rcases tx_exec_spec fail id ts with h0 | h0
  · left
    simp only [tagStepTx, h0]
  · have h0' : tx_exec fail id ts =
        Except.ok (TxState.mk ts.committed ts.working (ts.execs + 1)) := by
      simpa using h0
    rcases getOrCreateTagTx_spec fail tag_name
        (TxState.mk ts.committed ts.working (ts.execs + 1)) with h1 | ⟨e1, h1⟩
    · left
      simp only at h1
      simp only [tagStepTx, h0', h1]
    · simp only at h1
      rcases tx_exec_spec fail (fun d =>
          if (quote_id, (getOrCreate ts.working.tags tag_name).1) ∈ d.quote_tags
          then d
          else { d with quote_tags :=
            d.quote_tags ++ [(quote_id, (getOrCreate ts.working.tags tag_name).1)] })
          (TxState.mk ts.committed
            { ts.working with tags := (getOrCreate ts.working.tags tag_name).2 }
            e1) with h2 | h2
      · left
        simp only [tagStepTx, h0', h1, h2]
      · right
        refine ⟨e1 + 1, ?_⟩
        simp only [tagStepTx, h0', h1, h2, tagStepPure]

/-- The connection-level tag loop either raises with the committed database
or performs exactly the pure tag fold on the working copy. -/
theorem tagfold_spec (fail : Nat → Bool) (quote_id : Nat) :
    ∀ (tags : List String) (ts : TxState),
      tags.foldlM (tagStepTx fail quote_id) ts = Except.error ts.committed ∨
      ∃ e, tags.foldlM (tagStepTx fail quote_id) ts =
        Except.ok (TxState.mk ts.committed
          (tags.foldl (tagStepPure quote_id) ts.working) e) := by
  intro tags
  induction tags with
  | nil => exact fun ts => Or.inr ⟨ts.execs, rfl⟩
  | cons t ts' ih =>
    intro ts
    rw [List.foldlM_cons]
    rcases tagStepTx_spec fail quote_id ts t with h | ⟨e, h⟩
    · left; rw [h]; rfl
    · rw [h]
      have hbind : (Except.ok (TxState.mk ts.committed
            (tagStepPure quote_id ts.working t) e) >>=
          fun s => ts'.foldlM (tagStepTx fail quote_id) s) =
          ts'.foldlM (tagStepTx fail quote_id)
            (TxState.mk ts.committed (tagStepPure quote_id ts.working t) e) := rfl
      rw [hbind]
      rcases ih (TxState.mk ts.committed
          (tagStepPure quote_id ts.working t) e) with h2 | ⟨e2, h2⟩
      · left; rw [h2]
      · right
        exact ⟨e2, by rw [h2]; simp [List.foldl_cons]⟩

/-- **C10.** `insert_quote` is atomic with respect to errors: whichever
`cursor.execute` call raises (and whether or not one raises at all), the
call either propagates the exception with the database rolled back to its
state before the call, or returns exactly the result of the pure
`insert_quote`. In particular a failed `insert_quote` never leaves a
partially inserted author, quote, tag or junction row behind. -/
theorem c10_insert_quote_atomic (fail : Nat → Bool) (t a : String)
    (tags : List String) (src : Option String) (db : DB) :
    insert_quote_tx fail t a tags src db = Except.error db ∨
    insert_quote_tx fail t a tags src db =
      Except.ok (insert_quote t a tags src db) := by
  rcases tx_exec_spec fail id (TxState.mk db db 0) with h0 | h0
  · left
    simp only [insert_quote_tx, h0]
  · have h0' : tx_exec fail id (TxState.mk db db 0) =
        Except.ok (TxState.mk db db 1) := by simpa using h0
    by_cases hdup : (db.quotes.any fun q => q.text == t) = true
    · right
      simp only [insert_quote_tx, h0', hdup, if_true]
      simp [insert_quote, hdup]
    · have hdup' : (db.quotes.any fun q => q.text == t) = false :=
        Bool.not_eq_true _ ▸ hdup
      rcases tx_exec_spec fail id (TxState.mk db db 1) with h1 | h1
      · left
        simp only [insert_quote_tx, h0', hdup', h1, Bool.false_eq_true, if_false]
      · have h1' : tx_exec fail id (TxState.mk db db 1) =
            Except.ok (TxState.mk db db 2) := by simpa using h1
        rcases getOrCreateAuthorTx_spec fail a (TxState.mk db db 2)
            with h2 | ⟨e2, h2⟩
        · left
          simp only at h2
          simp only [insert_quote_tx, h0', hdup', h1', h2, Bool.false_eq_true,
            if_false]
        · simp only at h2
          rcases tx_exec_spec fail (fun d =>
              { d with quotes := d.quotes ++
                  [QuoteRow.mk t (getOrCreate db.authors a).1 src] })
              (TxState.mk db
                { db with authors := (getOrCreate db.authors a).2 } e2)
              with h3 | h3
          · left
            simp only at h3
            simp only [insert_quote_tx, h0', hdup', h1', h2, h3,
              Bool.false_eq_true, if_false]
          · simp only at h3
            rcases tagfold_spec fail
                ({ db with authors := (getOrCreate db.authors a).2 }.quotes ++
                  [QuoteRow.mk t (getOrCreate db.authors a).1 src]).length
                tags
                (TxState.mk db
                  { { db with authors := (getOrCreate db.authors a).2 } with
                      quotes :=
                        { db with authors := (getOrCreate db.authors a).2 }.quotes
                          ++ [QuoteRow.mk t (getOrCreate db.authors a).1 src] }
                  (e2 + 1)) with h4 | ⟨e4, h4⟩
            · left
              simp only at h4
              simp only [insert_quote_tx, h0', hdup', h1', h2, h3, h4,
                Bool.false_eq_true, if_false]
            · right
              simp only at h4
              simp only [insert_quote_tx, h0', hdup', h1', h2, h3, h4,
                Bool.false_eq_true, if_false]
              simp only [insert_quote, hdup', Bool.false_eq_true, if_false]

/-- Witness for `c10_insert_quote_atomic` is not required (the statement has
no propositional hypothesis), but the two reachable outcomes are exercised
concretely: a failure of the third `execute` (the quote `INSERT`) leaves the
one-quote database unchanged, while the fail-free run commits exactly the
pure result. -/
theorem c10_insert_quote_atomic_exercised :
    insert_quote_tx (fun k => k == 3) "q2" "A" ["tag"] none
        (DB.mk ["A"] [QuoteRow.mk "q1" 1 none] [] []) =
      Except.error (DB.mk ["A"] [QuoteRow.mk "q1" 1 none] [] []) ∧
    insert_quote_tx (fun _ => false) "q2" "A" ["tag"] none
        (DB.mk ["A"] [QuoteRow.mk "q1" 1 none] [] []) =
      Except.ok (insert_quote "q2" "A" ["tag"] none
        (DB.mk ["A"] [QuoteRow.mk "q1" 1 none] [] [])) := by
  constructor <;> rfl

end Scraper
